import Mathlib

/-!
Verification of the request execution and cancellation-composition engine of
the `http-client` library (src/http-request.ts, src/response-builder.ts,
src/util.ts / index.ts).  The TypeScript source is shallowly embedded: the
underlying `fetch` transport is abstracted as a function from the physical
attempt number to its outcome (a response, or a thrown value), and the
executor `httpRequest` is translated into a pure Lean function that returns
the terminal result together with an event trace (timer arm/disarm, transport
invocations, backoff sleeps) and the final state of the caller's
`RequestInit` record.
-/

/-- Constant TIMEOUT_MESSAGE from src/http-request.ts line 18. -/
def TIMEOUT_MESSAGE : String := "Request timed out"

/-- Constant DEFAULT_RETRIES from src/http-request.ts line 15. -/
def DEFAULT_RETRIES : Nat := 0

/-- Constant DEFAULT_RETRY_DELAY from src/http-request.ts line 16. -/
def DEFAULT_RETRY_DELAY : Nat := 500

/-- Constant DEFAULT_TIMEOUT from src/http-request.ts line 17. -/
def DEFAULT_TIMEOUT : Nat := 10000

/-- Boolean test that `pat` is a prefix-at-some-position of the character list
`s`: the semantics of JavaScript `String.prototype.includes`. -/
def charsIncludes (pat : List Char) : List Char → Bool
  | [] => pat.isPrefixOf []
  | c :: rest => pat.isPrefixOf (c :: rest) || charsIncludes pat rest

/-- JavaScript `s.includes(pat)`: substring containment test. -/
def strIncludes (s pat : String) : Bool := charsIncludes pat.toList s.toList

/-- Options interface of src/http-request.ts lines 20-24: all three policy
fields are optional (`none` models an absent / undefined field, which makes
the destructuring defaults of line 32-36 kick in). -/
structure Options where
  retries : Option Nat := none
  retryDelay : Option Nat := none
  timeout : Option Nat := none
deriving DecidableEq

/-- Value-level model of an AbortSignal reference as stored in a RequestInit.
`external i` is a caller-created signal, `controllerSig n` is the signal of
the fresh AbortController created by attempt `n` (src/http-request.ts line
41), and `merged parts` is the signal returned by `mergeSignals parts`
(line 43). -/
inductive SignalRef
  | external (id : Nat)
  | controllerSig (attempt : Nat)
  | merged (parts : List SignalRef)

/-- The RequestInit record handed to the executor.  Only the `signal` field is
touched by `httpRequest`; the remaining fields stand for all the fields the
builder set (method, headers, body, cache, credentials, ...). -/
structure RequestInit where
  method : String
  headers : List (String × String)
  body : Option String
  signal : Option SignalRef

/-- State of a ReadableStream value: the chunks it will deliver and whether it
is already closed. -/
structure StreamState where
  chunks : List (List Nat)
  closed : Bool
deriving DecidableEq

/-- The stream built by `new ReadableStream({ start(controller)
{ controller.close(); } })` in ResponseBuilder.stream (src/response-builder.ts
lines 127-132): it enqueues nothing and closes immediately. -/
def emptyClosedStream : StreamState := { chunks := [], closed := true }

/-- A fetch Response as far as the executor inspects it: its numeric `status`
and its `body` (null or a stream). -/
structure Resp where
  status : Nat
  body : Option StreamState := none
deriving DecidableEq

/-- `Response.ok` per the WHATWG fetch standard: status in the inclusive range
200..299.  The executor reads this field at src/http-request.ts line 54. -/
def Resp.ok (r : Resp) : Bool := 200 ≤ r.status && r.status ≤ 299

/-- A value thrown by the transport, as discriminated by the catch block of
src/http-request.ts lines 78-106: a plain string (an abort reason), a
DOMException (with its `name` and `message`), a TypeError (with its
`message`), or anything else. -/
inductive Thrown
  | str (s : String)
  | domException (name : String) (message : String)
  | typeError (message : String)
  | other
deriving DecidableEq

/-- Outcome of one physical `fetch` invocation: a Response, or a thrown
value. -/
inductive FetchOutcome
  | respond (response : Resp)
  | throw (err : Thrown)
deriving DecidableEq

/-- The error taxonomy of src/http-error.ts, flattened to a tagged union.
Constructor arguments follow the construction sites in src/http-request.ts
(message, attached raw response for the server kinds, attached thrown cause
for Connection/Client) and src/response-builder.ts (ParseBody with cause,
Validation with the schema error). -/
inductive HttpError
  | badRequest (message : String) (response : Resp)
  | unauthorized (message : String) (response : Resp)
  | forbidden (message : String) (response : Resp)
  | notFound (message : String) (response : Resp)
  | internalServer (message : String) (response : Resp)
  | serverError (message : String) (response : Resp)
  | timeout (message : String)
  | abort (message : String)
  | connection (message : String) (cause : Thrown)
  | client (message : String) (cause : Thrown)
  | parseBody (message : String) (cause : Thrown)
  | validation (cause : String)
deriving DecidableEq

/-- The raw response attached to an error, when there is one: the server-error
kinds carry the `response` passed at construction (src/http-request.ts lines
56-74). -/
def HttpError.response : HttpError → Option Resp
  | .badRequest _ r => some r
  | .unauthorized _ r => some r
  | .forbidden _ r => some r
  | .notFound _ r => some r
  | .internalServer _ r => some r
  | .serverError _ r => some r
  | _ => none

/-- Result type of src/common.ts lines 27-31: exactly one of the two variants
is populated. -/
inductive Result (T : Type) (E : Type)
  | success (data : T)
  | failure (error : E)

/-- Observable events of one logical request: arming/disarming the per-attempt
timeout timer (setTimeout at src/http-request.ts lines 45-48, clearTimeout in
the finally block at line 108), a physical transport invocation (line 51), and
a backoff suspension (lines 85/100). -/
inductive Ev
  | armTimer (attempt : Nat) (timeoutMs : Nat)
  | disarmTimer (attempt : Nat)
  | fetchCall (attempt : Nat)
  | sleep (ms : Nat)
deriving DecidableEq

/-- Everything one call to the executor produces: the terminal Result, the
final state of the (mutated) RequestInit, and the event trace in program
order.  Because `clearTimeout` lives in a `finally` whose `try` contains the
recursive retry call (`return await httpRequest(...)` at lines 86/101), the
disarm event of an attempt is emitted only after the whole nested retry chain
has finished. -/
structure RunResult where
  result : Result Resp HttpError
  finalInit : RequestInit
  trace : List Ev

/-- Lines 37-43 of src/http-request.ts: build the per-attempt signal list
`[init.signal (when present), controller.signal]` and overwrite `init.signal`
with the merged signal.  This is a mutation of the caller's RequestInit. -/
def attemptInit (init : RequestInit) (retryCount : Nat) : RequestInit :=
  { init with
    signal := some (SignalRef.merged
      ((match init.signal with
        | some s => [s]
        | none => []) ++ [SignalRef.controllerSig retryCount])) }

/-- Shallow embedding of `httpRequest` (src/http-request.ts lines 26-110)
after resolving the option defaults.  `transport n` is the outcome of the
`fetch` call made by physical attempt `n` (0-based `retryCount`).  Each
attempt: collects `[init.signal? , controller.signal]`, overwrites
`init.signal` with the merged signal (line 43 mutates the caller's init, and
the mutated init is what the recursive retry call receives), arms the timeout
timer, invokes the transport, and classifies the outcome exactly as the
source's if/switch/catch ladder does.  The trace of a retry is
`arm, fetch, sleep, (nested attempt's trace), disarm` - the disarm of the
current frame runs last because the finally block only runs once the awaited
recursive call has resolved. -/
def httpRequestGo (transport : Nat → FetchOutcome) (retries retryDelay timeout : Nat)
    (init : RequestInit) (retryCount : Nat) : RunResult :=
  let init' : RequestInit := attemptInit init retryCount
  let pre : List Ev := [Ev.armTimer retryCount timeout, Ev.fetchCall retryCount]
  match transport retryCount with
  | FetchOutcome.respond response =>
    if response.ok then
      { result := Result.success response, finalInit := init',
        trace := pre ++ [Ev.disarmTimer retryCount] }
    else
      { result := Result.failure
          (match response.status with
           | 400 => HttpError.badRequest "Bad Request" response
           | 401 => HttpError.unauthorized "Unauthorized" response
           | 403 => HttpError.forbidden "Forbidden" response
           | 404 => HttpError.notFound "Not Found" response
           | 500 => HttpError.internalServer "Internal Server Error" response
           | _ => HttpError.serverError
               ("Server responded with status: " ++ toString response.status) response),
        finalInit := init', trace := pre ++ [Ev.disarmTimer retryCount] }
  | FetchOutcome.throw err =>
    match err with
    | Thrown.str s =>
      if strIncludes s TIMEOUT_MESSAGE then
        if _h : retryCount < retries then
          let sub := httpRequestGo transport retries retryDelay timeout init' (retryCount + 1)
          { result := sub.result, finalInit := sub.finalInit,
            trace := pre ++ [Ev.sleep (retryDelay * 2 ^ retryCount)] ++ sub.trace
              ++ [Ev.disarmTimer retryCount] }
        else
          { result := Result.failure (HttpError.timeout TIMEOUT_MESSAGE),
            finalInit := init', trace := pre ++ [Ev.disarmTimer retryCount] }
      else
        { result := Result.failure (HttpError.abort s),
          finalInit := init', trace := pre ++ [Ev.disarmTimer retryCount] }
    | Thrown.domException name message =>
      if name = "AbortError" then
        { result := Result.failure (HttpError.abort message),
          finalInit := init', trace := pre ++ [Ev.disarmTimer retryCount] }
      else
        { result := Result.failure (HttpError.client "Unknown error" err),
          finalInit := init', trace := pre ++ [Ev.disarmTimer retryCount] }
    | Thrown.typeError message =>
      if strIncludes message "Failed to fetch" then
        if _h : retryCount < retries then
          let sub := httpRequestGo transport retries retryDelay timeout init' (retryCount + 1)
          { result := sub.result, finalInit := sub.finalInit,
            trace := pre ++ [Ev.sleep (retryDelay * 2 ^ retryCount)] ++ sub.trace
              ++ [Ev.disarmTimer retryCount] }
        else
          { result := Result.failure (HttpError.connection message err),
            finalInit := init', trace := pre ++ [Ev.disarmTimer retryCount] }
      else
        { result := Result.failure (HttpError.client "Unknown error" err),
          finalInit := init', trace := pre ++ [Ev.disarmTimer retryCount] }
    | Thrown.other =>
      { result := Result.failure (HttpError.client "Unknown error" err),
        finalInit := init', trace := pre ++ [Ev.disarmTimer retryCount] }
termination_by retries - retryCount
decreasing_by all_goals omega

/-- Entry point `httpRequest(url, init, options, retryCount = 0)`: resolves
the option defaults (src/http-request.ts lines 32-36) and runs the attempt
chain.  The `url` parameter is passed through to the transport unchanged and
does not otherwise affect control flow, so it is not modelled as data. -/
def httpRequest (transport : Nat → FetchOutcome) (init : RequestInit)
    (options : Options) (retryCount : Nat := 0) : RunResult :=
  httpRequestGo transport (options.retries.getD DEFAULT_RETRIES)
    (options.retryDelay.getD DEFAULT_RETRY_DELAY)
    (options.timeout.getD DEFAULT_TIMEOUT) init retryCount

/-- Number of physical transport invocations recorded in a trace. -/
def fetchCalls (t : List Ev) : Nat :=
  t.countP fun e =>
    match e with
    | Ev.fetchCall _ => true
    | _ => false

/-- The backoff suspensions recorded in a trace, in order, in milliseconds. -/
def sleeps (t : List Ev) : List Nat :=
  t.filterMap fun e =>
    match e with
    | Ev.sleep ms => some ms
    | _ => none

namespace ResponseBuilder

/-- ResponseBuilder's private handleResponse (src/response-builder.ts lines
36-48): propagate an upstream Failure unchanged; otherwise run the body
decoder, wrapping a decoded value in Success and a thrown value in the
supplied error constructor.  The decoder `parseResponse` models one of the
Response body-access operations (text/arrayBuffer/blob/formData/json), which
may throw: `Except.error` is the thrown value. -/
def handleResponse {T : Type} (result : Result Resp HttpError)
    (parseResponse : Resp → Except Thrown T)
    (parseError : Thrown → HttpError) : Result T HttpError :=
  match result with
  | Result.failure e => Result.failure e
  | Result.success data =>
    match parseResponse data with
    | Except.ok d => Result.success d
    | Except.error err => Result.failure (parseError err)

/-- ResponseBuilder.response (src/response-builder.ts lines 54-63): execute
the request through httpRequest with the builder's init and options. -/
def response (transport : Nat → FetchOutcome) (init : RequestInit)
    (options : Options) : Result Resp HttpError :=
  (httpRequest transport init options).result

/-- ResponseBuilder.text (src/response-builder.ts lines 140-146). -/
def text (transport : Nat → FetchOutcome) (init : RequestInit) (options : Options)
    (parseText : Resp → Except Thrown String) : Result String HttpError :=
  handleResponse (response transport init options) parseText
    (fun err => HttpError.parseBody "Failed to parse body as text" err)

/-- ResponseBuilder.arrayBuffer (src/response-builder.ts lines 69-77).  The
decoded ArrayBuffer type is opaque to the engine, hence the type parameter. -/
def arrayBuffer {A : Type} (transport : Nat → FetchOutcome) (init : RequestInit)
    (options : Options) (parseArrayBuffer : Resp → Except Thrown A) : Result A HttpError :=
  handleResponse (response transport init options) parseArrayBuffer
    (fun err => HttpError.parseBody "Failed to parse body as array buffer" err)

/-- ResponseBuilder.blob (src/response-builder.ts lines 83-89). -/
def blob {B : Type} (transport : Nat → FetchOutcome) (init : RequestInit)
    (options : Options) (parseBlob : Resp → Except Thrown B) : Result B HttpError :=
  handleResponse (response transport init options) parseBlob
    (fun err => HttpError.parseBody "Failed to parse body as blob" err)

/-- ResponseBuilder.formData (src/response-builder.ts lines 95-101). -/
def formData {F : Type} (transport : Nat → FetchOutcome) (init : RequestInit)
    (options : Options) (parseFormData : Resp → Except Thrown F) : Result F HttpError :=
  handleResponse (response transport init options) parseFormData
    (fun err => HttpError.parseBody "Failed to parse body as form data" err)

/-- ResponseBuilder.unsafeJson (src/response-builder.ts lines 152-158). -/
def unsafeJson {J : Type} (transport : Nat → FetchOutcome) (init : RequestInit)
    (options : Options) (parseJson : Resp → Except Thrown J) : Result J HttpError :=
  handleResponse (response transport init options) parseJson
    (fun err => HttpError.parseBody "Failed to parse body as json" err)

/-- ResponseBuilder.json (src/response-builder.ts lines 108-116): decode via
unsafeJson, then validate with the schema; a schema failure becomes a
Validation failure carrying the schema's error. -/
def json {J T : Type} (transport : Nat → FetchOutcome) (init : RequestInit)
    (options : Options) (parseJson : Resp → Except Thrown J)
    (schema : J → Except String T) : Result T HttpError :=
  match unsafeJson transport init options parseJson with
  | Result.failure e => Result.failure e
  | Result.success data =>
    match schema data with
    | Except.error e => Result.failure (HttpError.validation e)
    | Except.ok d => Result.success d

/-- ResponseBuilder.stream (src/response-builder.ts lines 122-134): on
success, hand back `response.body`, substituting a freshly constructed,
already-closed empty ReadableStream when the body is null. -/
def stream (transport : Nat → FetchOutcome) (init : RequestInit)
    (options : Options) : Result StreamState HttpError :=
  match response transport init options with
  | Result.failure e => Result.failure e
  | Result.success r =>
    Result.success
      (match r.body with
       | some b => b
       | none => emptyClosedStream)

end ResponseBuilder

/-- Merge-time state of one input AbortSignal: whether it is already aborted,
and its abort reason (meaningful only when aborted, or when it fires later
with that reason). -/
structure Sig where
  aborted : Bool
  reason : String
deriving DecidableEq

/-- Observable state of the AbortController backing a merged signal: whether
its signal is aborted, the reason it aborted with, and the indices of the
input sources that currently have an abort listener attached on behalf of the
merge. -/
structure MergedController where
  aborted : Bool
  reason : Option String
  listeners : List Nat
deriving DecidableEq

/-- `controller.abort(r)`: idempotent; the first call wins and later calls are
no-ops. -/
def controllerAbort (st : MergedController) (r : String) : MergedController :=
  if st.aborted then st else { st with aborted := true, reason := some r }

/-- The `for (const signal of signals)` loop of the exported mergeSignals
(src/util.ts, re-exported through index.ts, lines 138-144): an
already-aborted source aborts the controller with that source's reason
(idempotently, so the first aborted source in order wins); a not-yet-aborted
source gets an abort listener (recorded by index). -/
def mergeLoop (st : MergedController) (i : Nat) : List Sig → MergedController
  | [] => st
  | sig :: rest =>
    if sig.aborted then mergeLoop (controllerAbort st sig.reason) (i + 1) rest
    else mergeLoop { st with listeners := st.listeners ++ [i] } (i + 1) rest

/-- Merge-time behaviour of the exported mergeSignals (src/util.ts lines
121-153): run the subscription loop from an un-aborted controller, then - per
lines 146-150 - if the controller is already aborted, run cleanup, which
removes every source listener. -/
def mergeSignalsSetup (signals : List Sig) : MergedController :=
  let st := mergeLoop { aborted := false, reason := none, listeners := [] } 0 signals
  if st.aborted then { st with listeners := [] } else st

/-- A later abort event of source `i` firing with reason `r`, delivered to the
merged controller of the exported mergeSignals.  The listener was registered
with `once: true` (so it is removed), it calls `controller.abort` with the
firing source's reason, and the controller's own abort event runs `cleanup`,
removing every remaining source listener.  A source with no registered
listener (never subscribed, or already cleaned up) has no effect. -/
def deliverAbort (st : MergedController) (i : Nat) (r : String) : MergedController :=
  if i ∈ st.listeners then
    let st1 : MergedController := { st with listeners := st.listeners.erase i }
    if st1.aborted then st1
    else { aborted := true, reason := some r, listeners := [] }
  else st

/-- Merge-time behaviour of the executor-local mergeSignals
(src/http-request.ts lines 112-118): it assigns `signal.onabort` on every
source and returns the fresh controller's signal.  No already-aborted check is
made and nothing fires at merge time, so the merged signal starts un-aborted
regardless of the sources' states; every source index carries a handler. -/
def mergeSignalsLocalSetup (signals : List Sig) : MergedController :=
  { aborted := false, reason := none, listeners := List.range signals.length }

/-- A later abort event of source `i` firing with reason `r`, delivered to the
merged controller of the executor-local mergeSignals.  Only a source that was
not yet aborted at merge time can fire its abort event later (a source
aborted before the merge dispatched its abort event before the handler was
assigned, so the handler never runs); the handler calls `controller.abort`
with the firing source's reason. -/
def deliverAbortLocal (signals : List Sig) (st : MergedController) (i : Nat)
    (r : String) : MergedController :=
  if i ∈ st.listeners ∧ (signals.getD i { aborted := true, reason := "" }).aborted = false then
    controllerAbort st r
  else st

/-- A 200 response with a body stream of one chunk. -/
def respOkChunk : Resp :=
  { status := 200, body := some { chunks := [[104, 105]], closed := false } }

/-- A 200 response whose body is null. -/
def respOkNoBody : Resp := { status := 200, body := none }

/-- A teapot response: status 418 is not a success status and is not one of
the dedicated switch cases. -/
def resp418 : Resp := { status := 418 }

/-- A RequestInit as the builder would hand it over, with a caller-supplied
abort signal. -/
def init0 : RequestInit :=
  { method := "GET", headers := [("accept", "application/json")], body := none,
    signal := some (SignalRef.external 0) }

/-- A transport that succeeds immediately with a bodyless 200. -/
def okTransport : Nat → FetchOutcome := fun _ => FetchOutcome.respond respOkNoBody

/-- A transport that always responds 418. -/
def teapotTransport : Nat → FetchOutcome := fun _ => FetchOutcome.respond resp418

/-- A transport that always throws the connection-failure TypeError. -/
def connTransport : Nat → FetchOutcome :=
  fun _ => FetchOutcome.throw (Thrown.typeError "Failed to fetch")

/-- A transport whose first call throws the connection-failure TypeError and
whose later calls succeed. -/
def connThenOkTransport : Nat → FetchOutcome := fun n =>
  if n = 0 then FetchOutcome.throw (Thrown.typeError "Failed to fetch")
  else FetchOutcome.respond respOkNoBody

/-- A transport whose first call throws the synthetic timeout reason string
and whose later calls succeed. -/
def timeoutThenOkTransport : Nat → FetchOutcome := fun n =>
  if n = 0 then FetchOutcome.throw (Thrown.str TIMEOUT_MESSAGE)
  else FetchOutcome.respond respOkNoBody

/-- A transport whose first two calls throw the connection-failure TypeError
and whose third call succeeds. -/
def connTwiceThenOkTransport : Nat → FetchOutcome := fun n =>
  if n < 2 then FetchOutcome.throw (Thrown.typeError "Failed to fetch")
  else FetchOutcome.respond respOkNoBody

/-- A transport that always throws an operation-aborted DOMException, as a
caller-supplied cancellation surfaces when the runtime wraps it. -/
def domAbortTransport : Nat → FetchOutcome :=
  fun _ => FetchOutcome.throw (Thrown.domException "AbortError" "The operation was aborted")

/-- A transport that always throws a caller-supplied cancellation reason
string that does not contain the timeout marker. -/
def userCancelTransport : Nat → FetchOutcome :=
  fun _ => FetchOutcome.throw (Thrown.str "user cancelled")

/-- A transport that responds 200 with a body stream. -/
def okChunkTransport : Nat → FetchOutcome := fun _ => FetchOutcome.respond respOkChunk

theorem strIncludes_ftf : strIncludes "Failed to fetch" "Failed to fetch" = true := by decide

theorem go_fetchCalls_le (transport : Nat → FetchOutcome) (retries retryDelay timeout : Nat) :
    ∀ (k rc : Nat) (init : RequestInit), retries - rc ≤ k →
      fetchCalls (httpRequestGo transport retries retryDelay timeout init rc).trace
        ≤ retries - rc + 1 := by
  intro k
  induction k with
  | zero =>
    intro rc init h
    rw [httpRequestGo]
    dsimp only
    split
    · split
      · simp [fetchCalls]
      · simp [fetchCalls]
    · split
      · split
        · split
          · omega
          · simp [fetchCalls]
        · simp [fetchCalls]
      · split
        · simp [fetchCalls]
        · simp [fetchCalls]
      · split
        · split
          · omega
          · simp [fetchCalls]
        · simp [fetchCalls]
      · simp [fetchCalls]
  | succ k ih =>
    intro rc init h
    rw [httpRequestGo]
    dsimp only
    split
    · split
      · simp [fetchCalls]
      · simp [fetchCalls]
    · split
      · split
        · split
          · rename_i hlt
            have hsub := ih (rc + 1) (attemptInit init rc) (by omega)
            simp only [fetchCalls, List.countP_append, List.countP_cons,
              List.countP_nil] at hsub ⊢
            simp at hsub ⊢
            omega
          · simp [fetchCalls]
        · simp [fetchCalls]
      · split
        · simp [fetchCalls]
        · simp [fetchCalls]
      · split
        · split
          · rename_i hlt
            have hsub := ih (rc + 1) (attemptInit init rc) (by omega)
            simp only [fetchCalls, List.countP_append, List.countP_cons,
              List.countP_nil] at hsub ⊢
            simp at hsub ⊢
            omega
          · simp [fetchCalls]
        · simp [fetchCalls]
      · simp [fetchCalls]

theorem go_conn_all (transport : Nat → FetchOutcome) (retries retryDelay timeout : Nat)
    (msg : String) (hmsg : strIncludes msg "Failed to fetch" = true)
    (htr : ∀ n, transport n = FetchOutcome.throw (Thrown.typeError msg)) :
    ∀ (k rc : Nat) (init : RequestInit), retries - rc ≤ k →
      (httpRequestGo transport retries retryDelay timeout init rc).result
          = Result.failure (HttpError.connection msg (Thrown.typeError msg))
        ∧ fetchCalls (httpRequestGo transport retries retryDelay timeout init rc).trace
          = retries - rc + 1
        ∧ sleeps (httpRequestGo transport retries retryDelay timeout init rc).trace
          = (List.range' rc (retries - rc)).map (fun i => retryDelay * 2 ^ i) := by
  intro k
  induction k with
  | zero =>
    intro rc init h
    rw [httpRequestGo]
    dsimp only
    rw [htr rc]
    dsimp only
    rw [if_pos hmsg]
    split
    · omega
    · have hz : retries - rc = 0 := by omega
      simp [fetchCalls, sleeps, hz]
  | succ k ih =>
    intro rc init h
    rw [httpRequestGo]
    dsimp only
    rw [htr rc]
    dsimp only
    rw [if_pos hmsg]
    split
    · rename_i hlt
      have hsub := ih (rc + 1) (attemptInit init rc) (by omega)
      have hlen : retries - rc = (retries - (rc + 1)) + 1 := by omega
      refine ⟨hsub.1, ?_, ?_⟩
      · simp only [fetchCalls, List.countP_append, List.countP_cons, List.countP_nil]
        have := hsub.2.1
        simp only [fetchCalls] at this
        simp
        omega
      · simp only [sleeps, List.filterMap_append, List.filterMap_cons, List.filterMap_nil]
        have := hsub.2.2
        simp only [sleeps] at this
        simp only [this]
        rw [hlen, List.range'_succ]
        simp
    · have hz : retries - rc = 0 := by omega
      simp [fetchCalls, sleeps, hz]

theorem go_conn_then_ok (transport : Nat → FetchOutcome) (retries retryDelay timeout : Nat)
    (K : Nat) (resp : Resp) (hresp : resp.ok = true) (hK : K ≤ retries)
    (h1 : ∀ n, n < K → transport n = FetchOutcome.throw (Thrown.typeError "Failed to fetch"))
    (h2 : transport K = FetchOutcome.respond resp) :
    ∀ (k rc : Nat) (init : RequestInit), K - rc ≤ k → rc ≤ K →
      (httpRequestGo transport retries retryDelay timeout init rc).result
          = Result.success resp
        ∧ fetchCalls (httpRequestGo transport retries retryDelay timeout init rc).trace
          = K - rc + 1
        ∧ sleeps (httpRequestGo transport retries retryDelay timeout init rc).trace
          = (List.range' rc (K - rc)).map (fun i => retryDelay * 2 ^ i) := by
  intro k
  induction k with
  | zero =>
    intro rc init h hrc
    have hrcK : rc = K := by omega
    subst hrcK
    rw [httpRequestGo]
    dsimp only
    rw [h2]
    dsimp only
    rw [if_pos hresp]
    simp [fetchCalls, sleeps]
  | succ k ih =>
    intro rc init h hrc
    by_cases hrcK : rc = K
    · subst hrcK
      rw [httpRequestGo]
      dsimp only
      rw [h2]
      dsimp only
      rw [if_pos hresp]
      simp [fetchCalls, sleeps]
    · have hlt : rc < K := by omega
      rw [httpRequestGo]
      dsimp only
      rw [h1 rc hlt]
      dsimp only
      rw [if_pos strIncludes_ftf]
      rw [dif_pos (show rc < retries by omega)]
      dsimp only
      have hsub := ih (rc + 1) (attemptInit init rc) (by omega) (by omega)
      have hlen : K - rc = (K - (rc + 1)) + 1 := by omega
      refine ⟨hsub.1, ?_, ?_⟩
      · simp only [fetchCalls, List.countP_append, List.countP_cons, List.countP_nil]
        have := hsub.2.1
        simp only [fetchCalls] at this
        simp
        omega
      · simp only [sleeps, List.filterMap_append, List.filterMap_cons, List.filterMap_nil]
        have := hsub.2.2
        simp only [sleeps] at this
        simp only [this]
        rw [hlen, List.range'_succ]
        simp

theorem go_finalInit (transport : Nat → FetchOutcome) (retries retryDelay timeout : Nat) :
    ∀ (k rc : Nat) (init : RequestInit), retries - rc ≤ k →
      (httpRequestGo transport retries retryDelay timeout init rc).finalInit.method = init.method
      ∧ (httpRequestGo transport retries retryDelay timeout init rc).finalInit.headers
          = init.headers
      ∧ (httpRequestGo transport retries retryDelay timeout init rc).finalInit.body = init.body
      ∧ ∃ parts, (httpRequestGo transport retries retryDelay timeout init rc).finalInit.signal
          = some (SignalRef.merged parts) := by
  intro k
  induction k with
  | zero =>
    intro rc init h
    rw [httpRequestGo]
    dsimp only
    split
    · split
      · simp [attemptInit]
      · simp [attemptInit]
    · split
      · split
        · split
          · omega
          · simp [attemptInit]
        · simp [attemptInit]
      · split
        · simp [attemptInit]
        · simp [attemptInit]
      · split
        · split
          · omega
          · simp [attemptInit]
        · simp [attemptInit]
      · simp [attemptInit]
  | succ k ih =>
    intro rc init h
    rw [httpRequestGo]
    dsimp only
    split
    · split
      · simp [attemptInit]
      · simp [attemptInit]
    · split
      · split
        · split
          · rename_i hlt
            have hsub := ih (rc + 1) (attemptInit init rc) (by omega)
            simpa [attemptInit] using hsub
          · simp [attemptInit]
        · simp [attemptInit]
      · split
        · simp [attemptInit]
        · simp [attemptInit]
      · split
        · split
          · rename_i hlt
            have hsub := ih (rc + 1) (attemptInit init rc) (by omega)
            simpa [attemptInit] using hsub
          · simp [attemptInit]
        · simp [attemptInit]
      · simp [attemptInit]

theorem geomSum_list (d : Nat) :
    ∀ K : Nat, ((List.range K).map (fun i => d * 2 ^ i)).sum = d * (2 ^ K - 1) := by
  intro K
  induction K with
  | zero => simp
  | succ K ih =>
    rw [List.range_succ, List.map_append, List.sum_append, ih]
    simp only [List.map_cons, List.map_nil, List.sum_cons, List.sum_nil, Nat.add_zero]
    obtain ⟨B, hB⟩ : ∃ B, 2 ^ K = B + 1 :=
      ⟨2 ^ K - 1, by have := Nat.one_le_two_pow (n := K); omega⟩
    rw [pow_succ, hB]
    have h3 : (B + 1) * 2 - 1 = 2 * B + 1 := by omega
    have h4 : B + 1 - 1 = B := by omega
    rw [h3, h4]
    ring

/-- Claim C1: for every retry policy with retries = N and every transport
behaviour, one call to httpRequest performs at most N + 1 physical transport
invocations; with retries = 0 and a transport that always throws the
failed-to-connect condition, exactly one transport invocation occurs and the
result is a terminal Connection failure. -/
theorem httpRequest_transport_invocation_bound (transport : Nat → FetchOutcome)
    (init : RequestInit) (opts : Options) (N : Nat)
    (hN : opts.retries.getD DEFAULT_RETRIES = N) :
    fetchCalls (httpRequest transport init opts).trace ≤ N + 1
    ∧ (N = 0 →
        (∀ n, transport n = FetchOutcome.throw (Thrown.typeError "Failed to fetch")) →
        fetchCalls (httpRequest transport init opts).trace = 1
        ∧ (httpRequest transport init opts).result
            = Result.failure (HttpError.connection "Failed to fetch"
                (Thrown.typeError "Failed to fetch"))) := by
  subst hN
  unfold httpRequest
  constructor
  · have h := go_fetchCalls_le transport (opts.retries.getD DEFAULT_RETRIES)
      (opts.retryDelay.getD DEFAULT_RETRY_DELAY) (opts.timeout.getD DEFAULT_TIMEOUT)
      (opts.retries.getD DEFAULT_RETRIES) 0 init (by omega)
    simpa using h
  · intro h0 htr
    have h := go_conn_all transport (opts.retries.getD DEFAULT_RETRIES)
      (opts.retryDelay.getD DEFAULT_RETRY_DELAY) (opts.timeout.getD DEFAULT_TIMEOUT)
      "Failed to fetch" strIncludes_ftf htr (opts.retries.getD DEFAULT_RETRIES) 0 init (by omega)
    refine ⟨?_, h.1⟩
    have := h.2.1
    omega

/-- Witness for C1 at a concrete input: default options (retries = 0) against
the always-failing connection transport give exactly one invocation and a
terminal Connection failure. -/
theorem httpRequest_transport_invocation_bound_witness :
    fetchCalls (httpRequest connTransport init0 {}).trace ≤ 0 + 1
    ∧ fetchCalls (httpRequest connTransport init0 {}).trace = 1
    ∧ (httpRequest connTransport init0 {}).result
        = Result.failure (HttpError.connection "Failed to fetch"
            (Thrown.typeError "Failed to fetch")) := by
  have h := httpRequest_transport_invocation_bound connTransport init0 {} 0 rfl
  exact ⟨h.1, (h.2 rfl (fun n => rfl)).1, (h.2 rfl (fun n => rfl)).2⟩

/-- Claim C5: a transport that persistently throws a failed-to-connect
TypeError is retried until the budget is exhausted (N + 1 invocations for
retries = N), and the terminal result is a Connection error carrying the
original thrown error as cause - never a Timeout error. -/
theorem httpRequest_persistent_connection_failure (transport : Nat → FetchOutcome)
    (init : RequestInit) (opts : Options) (N : Nat) (msg : String)
    (hN : opts.retries.getD DEFAULT_RETRIES = N)
    (hmsg : strIncludes msg "Failed to fetch" = true)
    (htr : ∀ n, transport n = FetchOutcome.throw (Thrown.typeError msg)) :
    (httpRequest transport init opts).result
        = Result.failure (HttpError.connection msg (Thrown.typeError msg))
    ∧ fetchCalls (httpRequest transport init opts).trace = N + 1
    ∧ ∀ m, (httpRequest transport init opts).result
        ≠ Result.failure (HttpError.timeout m) := by
  subst hN
  unfold httpRequest
  have h := go_conn_all transport (opts.retries.getD DEFAULT_RETRIES)
    (opts.retryDelay.getD DEFAULT_RETRY_DELAY) (opts.timeout.getD DEFAULT_TIMEOUT)
    msg hmsg htr (opts.retries.getD DEFAULT_RETRIES) 0 init (by omega)
  refine ⟨h.1, by have := h.2.1; omega, ?_⟩
  intro m
  rw [h.1]
  simp

/-- Witness for C5 at a concrete input: retries = 2 against the persistent
connection-failure transport gives three invocations and a Connection (not
Timeout) terminal error. -/
theorem httpRequest_persistent_connection_failure_witness :
    (httpRequest connTransport init0 { retries := some 2 }).result
        = Result.failure (HttpError.connection "Failed to fetch"
            (Thrown.typeError "Failed to fetch"))
    ∧ fetchCalls (httpRequest connTransport init0 { retries := some 2 }).trace = 3
    ∧ ∀ m, (httpRequest connTransport init0 { retries := some 2 }).result
        ≠ Result.failure (HttpError.timeout m) := by
  have h := httpRequest_persistent_connection_failure connTransport init0
    { retries := some 2 } 2 "Failed to fetch" rfl (by decide) (fun n => rfl)
  exact ⟨h.1, h.2.1, h.2.2⟩

/-- Claim C6: with retries = N and retryDelay = d, a transport throwing the
connection condition on the first k of its calls (k at most N) and succeeding
on call k + 1 yields success after exactly k + 1 invocations; the suspension
before retry i lasts exactly d * 2 ^ i milliseconds (pure exponential
backoff, no jitter, no cap), so the cumulative inserted delay is
d * (2 ^ k - 1). -/
theorem httpRequest_exponential_backoff (transport : Nat → FetchOutcome)
    (init : RequestInit) (opts : Options) (N d K : Nat) (resp : Resp)
    (hN : opts.retries.getD DEFAULT_RETRIES = N)
    (hd : opts.retryDelay.getD DEFAULT_RETRY_DELAY = d)
    (hdpos : 0 < d) (hK : K ≤ N) (hresp : resp.ok = true)
    (h1 : ∀ n, n < K → transport n = FetchOutcome.throw (Thrown.typeError "Failed to fetch"))
    (h2 : transport K = FetchOutcome.respond resp) :
    (httpRequest transport init opts).result = Result.success resp
    ∧ fetchCalls (httpRequest transport init opts).trace = K + 1
    ∧ sleeps (httpRequest transport init opts).trace
        = (List.range K).map (fun i => d * 2 ^ i)
    ∧ (sleeps (httpRequest transport init opts).trace).sum = d * (2 ^ K - 1) := by
  subst hN
  subst hd
  unfold httpRequest
  have h := go_conn_then_ok transport (opts.retries.getD DEFAULT_RETRIES)
    (opts.retryDelay.getD DEFAULT_RETRY_DELAY) (opts.timeout.getD DEFAULT_TIMEOUT)
    K resp hresp hK h1 h2 K 0 init (by omega) (by omega)
  have hr : List.range K = List.range' 0 K := List.range_eq_range' K
  have hsl : sleeps (httpRequestGo transport (opts.retries.getD DEFAULT_RETRIES)
      (opts.retryDelay.getD DEFAULT_RETRY_DELAY) (opts.timeout.getD DEFAULT_TIMEOUT) init 0).trace
      = (List.range K).map (fun i => (opts.retryDelay.getD DEFAULT_RETRY_DELAY) * 2 ^ i) := by
    rw [hr]
    simpa using h.2.2
  refine ⟨h.1, by have := h.2.1; omega, hsl, ?_⟩
  rw [hsl, geomSum_list]

/-- Witness for C6 at a concrete input: retries = 2, retryDelay = 100, a
transport failing twice then succeeding: success after 3 invocations, sleeps
[100, 200], total 300 = 100 * (2 ^ 2 - 1). -/
theorem httpRequest_exponential_backoff_witness :
    (httpRequest connTwiceThenOkTransport init0
        { retries := some 2, retryDelay := some 100 }).result
      = Result.success respOkNoBody
    ∧ fetchCalls (httpRequest connTwiceThenOkTransport init0
        { retries := some 2, retryDelay := some 100 }).trace = 3
    ∧ sleeps (httpRequest connTwiceThenOkTransport init0
        { retries := some 2, retryDelay := some 100 }).trace
      = (List.range 2).map (fun i => 100 * 2 ^ i)
    ∧ (sleeps (httpRequest connTwiceThenOkTransport init0
        { retries := some 2, retryDelay := some 100 }).trace).sum = 100 * (2 ^ 2 - 1) := by
  have h := httpRequest_exponential_backoff connTwiceThenOkTransport init0
    { retries := some 2, retryDelay := some 100 } 2 100 2 respOkNoBody rfl rfl
    (by omega) (by omega) (by decide)
    (fun n hn => by unfold connTwiceThenOkTransport; rw [if_pos hn])
    (by decide)
  exact ⟨h.1, h.2.1, h.2.2.1, h.2.2.2⟩

/-- Claim C2: a thrown cancellation is retried when and only when it is the
synthetic timeout firing, i.e. a thrown string containing the fixed marker
text: such a throw retries while the attempt count is below retries and
classifies as Timeout once the budget is exhausted; a thrown string not
matching the marker, or an operation-aborted DOMException, classifies as
Abort immediately with a single transport invocation, regardless of
remaining retry budget. -/
theorem httpRequest_cancellation_classification (transport : Nat → FetchOutcome)
    (init : RequestInit) (opts : Options) (rc N d t : Nat)
    (hN : opts.retries.getD DEFAULT_RETRIES = N)
    (hd : opts.retryDelay.getD DEFAULT_RETRY_DELAY = d)
    (ht : opts.timeout.getD DEFAULT_TIMEOUT = t) :
    (∀ s, transport rc = FetchOutcome.throw (Thrown.str s) →
      (strIncludes s TIMEOUT_MESSAGE = true →
        (rc < N →
          (httpRequest transport init opts rc).result
            = (httpRequest transport (attemptInit init rc) opts (rc + 1)).result
          ∧ (httpRequest transport init opts rc).trace
            = [Ev.armTimer rc t, Ev.fetchCall rc, Ev.sleep (d * 2 ^ rc)]
              ++ (httpRequest transport (attemptInit init rc) opts (rc + 1)).trace
              ++ [Ev.disarmTimer rc])
        ∧ (¬ rc < N →
          (httpRequest transport init opts rc).result
            = Result.failure (HttpError.timeout TIMEOUT_MESSAGE)
          ∧ fetchCalls (httpRequest transport init opts rc).trace = 1))
      ∧ (strIncludes s TIMEOUT_MESSAGE = false →
          (httpRequest transport init opts rc).result = Result.failure (HttpError.abort s)
          ∧ fetchCalls (httpRequest transport init opts rc).trace = 1))
    ∧ (∀ name message, transport rc = FetchOutcome.throw (Thrown.domException name message) →
        name = "AbortError" →
        (httpRequest transport init opts rc).result = Result.failure (HttpError.abort message)
        ∧ fetchCalls (httpRequest transport init opts rc).trace = 1) := by
  subst hN
  subst hd
  subst ht
  unfold httpRequest
  constructor
  · intro s hs
    constructor
    · intro hmark
      constructor
      · intro hlt
        constructor
        · conv_lhs => rw [httpRequestGo]
          dsimp only
          rw [hs]
          dsimp only
          rw [if_pos hmark, dif_pos hlt]
        · conv_lhs => rw [httpRequestGo]
          dsimp only
          rw [hs]
          dsimp only
          rw [if_pos hmark, dif_pos hlt]
          simp
      · intro hge
        rw [httpRequestGo]
        dsimp only
        rw [hs]
        dsimp only
        rw [if_pos hmark, dif_neg hge]
        exact ⟨rfl, by simp [fetchCalls]⟩
    · intro hmark
      rw [httpRequestGo]
      dsimp only
      rw [hs]
      dsimp only
      rw [if_neg (by simp [hmark])]
      exact ⟨rfl, by simp [fetchCalls]⟩
  · intro name message hdom hname
    subst hname
    rw [httpRequestGo]
    dsimp only
    rw [hdom]
    dsimp only
    rw [if_pos rfl]
    exact ⟨rfl, by simp [fetchCalls]⟩

/-- Witness for C2 at concrete inputs, with retries = 1: a thrown timeout
marker string on attempt 0 retries (the run continues as attempt 1 on the
mutated init); a non-marker cancellation string and an AbortError
DOMException each yield an immediate Abort failure after exactly one
invocation even though a retry remains. -/
theorem httpRequest_cancellation_classification_witness :
    (httpRequest timeoutThenOkTransport init0
        { retries := some 1, retryDelay := some 500, timeout := some 10000 } 0).result
      = (httpRequest timeoutThenOkTransport (attemptInit init0 0)
          { retries := some 1, retryDelay := some 500, timeout := some 10000 } 1).result
    ∧ (httpRequest userCancelTransport init0
        { retries := some 1, retryDelay := some 500, timeout := some 10000 } 0).result
      = Result.failure (HttpError.abort "user cancelled")
    ∧ fetchCalls (httpRequest userCancelTransport init0
        { retries := some 1, retryDelay := some 500, timeout := some 10000 } 0).trace = 1
    ∧ (httpRequest domAbortTransport init0
        { retries := some 1, retryDelay := some 500, timeout := some 10000 } 0).result
      = Result.failure (HttpError.abort "The operation was aborted")
    ∧ fetchCalls (httpRequest domAbortTransport init0
        { retries := some 1, retryDelay := some 500, timeout := some 10000 } 0).trace = 1 := by
  have h1 := httpRequest_cancellation_classification timeoutThenOkTransport init0
    { retries := some 1, retryDelay := some 500, timeout := some 10000 } 0 1 500 10000
    rfl rfl rfl
  have h2 := httpRequest_cancellation_classification userCancelTransport init0
    { retries := some 1, retryDelay := some 500, timeout := some 10000 } 0 1 500 10000
    rfl rfl rfl
  have h3 := httpRequest_cancellation_classification domAbortTransport init0
    { retries := some 1, retryDelay := some 500, timeout := some 10000 } 0 1 500 10000
    rfl rfl rfl
  refine ⟨((h1.1 TIMEOUT_MESSAGE rfl).1 (by decide)).1 (by decide) |>.1, ?_, ?_, ?_, ?_⟩
  · exact ((h2.1 "user cancelled" rfl).2 (by decide)).1
  · exact ((h2.1 "user cancelled" rfl).2 (by decide)).2
  · exact (h3.2 "AbortError" "The operation was aborted" rfl rfl).1
  · exact (h3.2 "AbortError" "The operation was aborted" rfl rfl).2

/-- Claim C3: for every transport behaviour and every body-decode behaviour,
httpRequest and the decoding wrappers return a Result with exactly one
populated variant and never let a thrown value escape: an upstream failure
propagates unchanged through every wrapper, a decode throw surfaces as a
ParseBody failure, and a schema rejection surfaces as a Validation
failure. -/
theorem httpClient_result_discipline {A B F J T : Type} (transport : Nat → FetchOutcome)
    (init : RequestInit) (opts : Options)
    (parseText : Resp → Except Thrown String) (parseAB : Resp → Except Thrown A)
    (parseBlob : Resp → Except Thrown B) (parseFD : Resp → Except Thrown F)
    (parseJson : Resp → Except Thrown J) (schema : J → Except String T) :
    ((∃ r, (httpRequest transport init opts).result = Result.success r)
      ∨ (∃ e, (httpRequest transport init opts).result = Result.failure e))
    ∧ (∀ r e, (httpRequest transport init opts).result = Result.success r →
        (httpRequest transport init opts).result ≠ Result.failure e)
    ∧ (∀ e, ResponseBuilder.response transport init opts = Result.failure e →
        ResponseBuilder.text transport init opts parseText = Result.failure e
        ∧ ResponseBuilder.arrayBuffer transport init opts parseAB = Result.failure e
        ∧ ResponseBuilder.blob transport init opts parseBlob = Result.failure e
        ∧ ResponseBuilder.formData transport init opts parseFD = Result.failure e
        ∧ ResponseBuilder.unsafeJson transport init opts parseJson = Result.failure e
        ∧ ResponseBuilder.json transport init opts parseJson schema = Result.failure e
        ∧ ResponseBuilder.stream transport init opts = Result.failure e)
    ∧ (∀ r, ResponseBuilder.response transport init opts = Result.success r →
        (∀ v, parseText r = Except.ok v →
          ResponseBuilder.text transport init opts parseText = Result.success v)
        ∧ (∀ er, parseText r = Except.error er →
          ResponseBuilder.text transport init opts parseText
            = Result.failure (HttpError.parseBody "Failed to parse body as text" er))
        ∧ (∀ v, parseAB r = Except.ok v →
          ResponseBuilder.arrayBuffer transport init opts parseAB = Result.success v)
        ∧ (∀ er, parseAB r = Except.error er →
          ResponseBuilder.arrayBuffer transport init opts parseAB
            = Result.failure (HttpError.parseBody "Failed to parse body as array buffer" er))
        ∧ (∀ v, parseBlob r = Except.ok v →
          ResponseBuilder.blob transport init opts parseBlob = Result.success v)
        ∧ (∀ er, parseBlob r = Except.error er →
          ResponseBuilder.blob transport init opts parseBlob
            = Result.failure (HttpError.parseBody "Failed to parse body as blob" er))
        ∧ (∀ v, parseFD r = Except.ok v →
          ResponseBuilder.formData transport init opts parseFD = Result.success v)
        ∧ (∀ er, parseFD r = Except.error er →
          ResponseBuilder.formData transport init opts parseFD
            = Result.failure (HttpError.parseBody "Failed to parse body as form data" er))
        ∧ (∀ v, parseJson r = Except.ok v →
          ResponseBuilder.unsafeJson transport init opts parseJson = Result.success v)
        ∧ (∀ er, parseJson r = Except.error er →
          ResponseBuilder.unsafeJson transport init opts parseJson
            = Result.failure (HttpError.parseBody "Failed to parse body as json" er))
        ∧ (∀ j v, parseJson r = Except.ok j → schema j = Except.ok v →
          ResponseBuilder.json transport init opts parseJson schema = Result.success v)
        ∧ (∀ j ze, parseJson r = Except.ok j → schema j = Except.error ze →
          ResponseBuilder.json transport init opts parseJson schema
            = Result.failure (HttpError.validation ze))
        ∧ (∀ er, parseJson r = Except.error er →
          ResponseBuilder.json transport init opts parseJson schema
            = Result.failure (HttpError.parseBody "Failed to parse body as json" er))
        ∧ ResponseBuilder.stream transport init opts
            = Result.success
                (match r.body with
                 | some b => b
                 | none => emptyClosedStream)) := by
  refine ⟨?_, ?_, ?_, ?_⟩
  · cases h : (httpRequest transport init opts).result with
    | success r => exact Or.inl ⟨r, rfl⟩
    | failure e => exact Or.inr ⟨e, rfl⟩
  · intro r e hs
    rw [hs]
    simp
  · intro e he
    refine ⟨?_, ?_, ?_, ?_, ?_, ?_, ?_⟩ <;>
      simp [ResponseBuilder.text, ResponseBuilder.arrayBuffer, ResponseBuilder.blob,
        ResponseBuilder.formData, ResponseBuilder.unsafeJson, ResponseBuilder.json,
        ResponseBuilder.stream, ResponseBuilder.handleResponse, he]
  · intro r hr
    refine ⟨?_, ?_, ?_, ?_, ?_, ?_, ?_, ?_, ?_, ?_, ?_, ?_, ?_, ?_⟩
    · intro v hv
      simp [ResponseBuilder.text, ResponseBuilder.handleResponse, hr, hv]
    · intro er her
      simp [ResponseBuilder.text, ResponseBuilder.handleResponse, hr, her]
    · intro v hv
      simp [ResponseBuilder.arrayBuffer, ResponseBuilder.handleResponse, hr, hv]
    · intro er her
      simp [ResponseBuilder.arrayBuffer, ResponseBuilder.handleResponse, hr, her]
    · intro v hv
      simp [ResponseBuilder.blob, ResponseBuilder.handleResponse, hr, hv]
    · intro er her
      simp [ResponseBuilder.blob, ResponseBuilder.handleResponse, hr, her]
    · intro v hv
      simp [ResponseBuilder.formData, ResponseBuilder.handleResponse, hr, hv]
    · intro er her
      simp [ResponseBuilder.formData, ResponseBuilder.handleResponse, hr, her]
    · intro v hv
      simp [ResponseBuilder.unsafeJson, ResponseBuilder.handleResponse, hr, hv]
    · intro er her
      simp [ResponseBuilder.unsafeJson, ResponseBuilder.handleResponse, hr, her]
    · intro j v hj hv
      simp [ResponseBuilder.json, ResponseBuilder.unsafeJson,
        ResponseBuilder.handleResponse, hr, hj, hv]
    · intro j ze hj hze
      simp [ResponseBuilder.json, ResponseBuilder.unsafeJson,
        ResponseBuilder.handleResponse, hr, hj, hze]
    · intro er her
      simp [ResponseBuilder.json, ResponseBuilder.unsafeJson,
        ResponseBuilder.handleResponse, hr, her]
    · simp [ResponseBuilder.stream, hr]

/-- Witness for C3 at concrete inputs: a successful decode yields Success, a
schema rejection yields a Validation failure, a decode throw yields a
ParseBody failure, and an executor failure propagates unchanged through
stream. -/
theorem httpClient_result_discipline_witness :
    ResponseBuilder.text okChunkTransport init0 {} (fun _ => Except.ok "hi")
      = Result.success "hi"
    ∧ ResponseBuilder.json okChunkTransport init0 {} (fun _ => Except.ok (37 : Nat))
        (fun _ => (Except.error "expected a string" : Except String Nat))
      = Result.failure (HttpError.validation "expected a string")
    ∧ ResponseBuilder.unsafeJson okChunkTransport init0 {}
        (fun _ => (Except.error Thrown.other : Except Thrown Nat))
      = Result.failure (HttpError.parseBody "Failed to parse body as json" Thrown.other)
    ∧ ResponseBuilder.stream connTransport init0 {}
      = Result.failure (HttpError.connection "Failed to fetch"
          (Thrown.typeError "Failed to fetch")) := by
  have hresp : ResponseBuilder.response okChunkTransport init0 {}
      = Result.success respOkChunk := by
    unfold ResponseBuilder.response httpRequest
    rw [httpRequestGo]
    dsimp only [okChunkTransport]
    rw [if_pos (show respOkChunk.ok = true by decide)]
  have hfail : ResponseBuilder.response connTransport init0 {}
      = Result.failure (HttpError.connection "Failed to fetch"
          (Thrown.typeError "Failed to fetch")) := by
    unfold ResponseBuilder.response httpRequest
    rw [httpRequestGo]
    dsimp only [connTransport]
    rw [if_pos strIncludes_ftf]
    rw [dif_neg (by decide)]
  have h1 := httpClient_result_discipline okChunkTransport init0 {} (fun _ => Except.ok "hi")
    (fun _ => (Except.ok 0 : Except Thrown Nat)) (fun _ => (Except.ok 0 : Except Thrown Nat))
    (fun _ => (Except.ok 0 : Except Thrown Nat)) (fun _ => Except.ok (37 : Nat))
    (fun _ => (Except.error "expected a string" : Except String Nat))
  have h2 := httpClient_result_discipline okChunkTransport init0 {} (fun _ => Except.ok "hi")
    (fun _ => (Except.ok 0 : Except Thrown Nat)) (fun _ => (Except.ok 0 : Except Thrown Nat))
    (fun _ => (Except.ok 0 : Except Thrown Nat))
    (fun _ => (Except.error Thrown.other : Except Thrown Nat))
    (fun _ => (Except.error "expected a string" : Except String Nat))
  have h3 := httpClient_result_discipline connTransport init0 {} (fun _ => Except.ok "hi")
    (fun _ => (Except.ok 0 : Except Thrown Nat)) (fun _ => (Except.ok 0 : Except Thrown Nat))
    (fun _ => (Except.ok 0 : Except Thrown Nat)) (fun _ => Except.ok (37 : Nat))
    (fun _ => (Except.error "expected a string" : Except String Nat))
  obtain ⟨t1, t2, a1, a2, b1, b2, f1, f2, u1, u2, j1, j2, j3, hs⟩ := h1.2.2.2 respOkChunk hresp
  obtain ⟨s1, s2, s3, s4, s5, s6, s7, s8, s9, s10, s11, s12, s13, s14⟩ :=
    h2.2.2.2 respOkChunk hresp
  have hprop := h3.2.2.1 (HttpError.connection "Failed to fetch"
    (Thrown.typeError "Failed to fetch")) hfail
  exact ⟨t1 "hi" rfl, j2 37 "expected a string" rfl rfl, s10 Thrown.other rfl,
    hprop.2.2.2.2.2.2⟩

/-- Claim C4: a response whose status is outside the success range maps by
exact status code - 400 BadRequest, 401 Unauthorized, 403 Forbidden,
404 NotFound, 500 InternalServer, and every other non-success status to the
generic ServerError kind - and every such error carries the original raw
response. -/
theorem httpRequest_status_mapping (transport : Nat → FetchOutcome)
    (init : RequestInit) (opts : Options) (resp : Resp)
    (h0 : transport 0 = FetchOutcome.respond resp) (hok : resp.ok = false) :
    (resp.status = 400 →
      (httpRequest transport init opts).result
        = Result.failure (HttpError.badRequest "Bad Request" resp))
    ∧ (resp.status = 401 →
      (httpRequest transport init opts).result
        = Result.failure (HttpError.unauthorized "Unauthorized" resp))
    ∧ (resp.status = 403 →
      (httpRequest transport init opts).result
        = Result.failure (HttpError.forbidden "Forbidden" resp))
    ∧ (resp.status = 404 →
      (httpRequest transport init opts).result
        = Result.failure (HttpError.notFound "Not Found" resp))
    ∧ (resp.status = 500 →
      (httpRequest transport init opts).result
        = Result.failure (HttpError.internalServer "Internal Server Error" resp))
    ∧ (resp.status ≠ 400 → resp.status ≠ 401 → resp.status ≠ 403 → resp.status ≠ 404 →
        resp.status ≠ 500 →
      (httpRequest transport init opts).result
        = Result.failure (HttpError.serverError
            ("Server responded with status: " ++ toString resp.status) resp))
    ∧ ∃ e, (httpRequest transport init opts).result = Result.failure e
        ∧ HttpError.response e = some resp := by
  unfold httpRequest
  rw [httpRequestGo]
  dsimp only
  rw [h0]
  dsimp only
  rw [if_neg (by simp [hok])]
  refine ⟨?_, ?_, ?_, ?_, ?_, ?_, ?_⟩
  · intro h
    rw [h]
  · intro h
    rw [h]
  · intro h
    rw [h]
  · intro h
    rw [h]
  · intro h
    rw [h]
  · intro h400 h401 h403 h404 h500
    split
    all_goals simp_all
  · split
    all_goals exact ⟨_, rfl, rfl⟩

/-- Witness for C4 at a concrete input: status 418 (a teapot) maps to the
generic ServerError kind, and the error carries the original response. -/
theorem httpRequest_status_mapping_witness :
    (httpRequest teapotTransport init0 {}).result
      = Result.failure (HttpError.serverError "Server responded with status: 418" resp418)
    ∧ ∃ e, (httpRequest teapotTransport init0 {}).result = Result.failure e
        ∧ HttpError.response e = some resp418 := by
  have h := httpRequest_status_mapping teapotTransport init0 {} resp418 rfl (by decide)
  have h6 := h.2.2.2.2.2.1 (by decide) (by decide) (by decide) (by decide) (by decide)
  have hstr : ("Server responded with status: " ++ toString resp418.status)
      = "Server responded with status: 418" := rfl
  rw [hstr] at h6
  exact ⟨h6, h.2.2.2.2.2.2⟩

theorem mergeLoop_of_aborted (l : List Sig) :
    ∀ (st : MergedController) (i : Nat), st.aborted = true →
      (mergeLoop st i l).aborted = true ∧ (mergeLoop st i l).reason = st.reason := by
  induction l with
  | nil =>
    intro st i h
    exact ⟨h, rfl⟩
  | cons sig rest ih =>
    intro st i h
    rw [mergeLoop]
    split
    · have habort : controllerAbort st sig.reason = st := by
        unfold controllerAbort
        rw [if_pos h]
      rw [habort]
      exact ih st (i + 1) h
    · exact ih { st with listeners := st.listeners ++ [i] } (i + 1) h

theorem mergeLoop_find_aborted (l : List Sig) :
    ∀ (st : MergedController) (i : Nat), st.aborted = false →
      ∀ sig, l.find? (fun s => s.aborted) = some sig →
        (mergeLoop st i l).aborted = true
        ∧ (mergeLoop st i l).reason = some sig.reason := by
  induction l with
  | nil => simp
  | cons s rest ih =>
    intro st i h sig hfind
    rw [mergeLoop]
    by_cases hs : s.aborted = true
    · rw [if_pos hs]
      rw [List.find?_cons_of_pos _ hs] at hfind
      have hsig : s = sig := by
        simpa using hfind
      subst hsig
      have habort : controllerAbort st s.reason
          = { st with aborted := true, reason := some s.reason } := by
        unfold controllerAbort
        rw [if_neg (by simp [h])]
      rw [habort]
      have := mergeLoop_of_aborted rest { st with aborted := true, reason := some s.reason }
        (i + 1) rfl
      exact ⟨this.1, this.2⟩
    · rw [if_neg hs]
      rw [List.find?_cons_of_neg _ hs] at hfind
      exact ih { st with listeners := st.listeners ++ [i] } (i + 1) h sig hfind

theorem mergeLoop_all_unaborted (l : List Sig) :
    ∀ (st : MergedController) (i : Nat), st.aborted = false →
      (∀ sig ∈ l, sig.aborted = false) →
      mergeLoop st i l = { st with listeners := st.listeners ++ List.range' i l.length } := by
  induction l with
  | nil =>
    intro st i h hall
    simp [mergeLoop]
  | cons sig rest ih =>
    intro st i h hall
    rw [mergeLoop]
    rw [if_neg (by simp [hall sig (List.mem_cons_self sig rest)])]
    rw [ih { st with listeners := st.listeners ++ [i] } (i + 1) h
      (fun s hs => hall s (List.mem_cons_of_mem sig hs))]
    simp [List.range'_succ]

theorem mergeSignalsSetup_already_fired (signals : List Sig) (sig : Sig)
    (hfind : signals.find? (fun s => s.aborted) = some sig) :
    (mergeSignalsSetup signals).aborted = true
    ∧ (mergeSignalsSetup signals).reason = some sig.reason
    ∧ (mergeSignalsSetup signals).listeners = [] := by
  unfold mergeSignalsSetup
  have h := mergeLoop_find_aborted signals
    { aborted := false, reason := none, listeners := [] } 0 rfl sig hfind
  rw [if_pos h.1]
  exact ⟨h.1, h.2, rfl⟩

theorem mergeSignalsSetup_none_fired (signals : List Sig)
    (hall : ∀ sig ∈ signals, sig.aborted = false) :
    mergeSignalsSetup signals
      = { aborted := false, reason := none, listeners := List.range' 0 signals.length } := by
  unfold mergeSignalsSetup
  rw [mergeLoop_all_unaborted signals { aborted := false, reason := none, listeners := [] } 0
    rfl hall]
  simp

theorem deliverAbort_fires (st : MergedController) (i : Nat) (r : String)
    (hmem : i ∈ st.listeners) (h : st.aborted = false) :
    deliverAbort st i r = { aborted := true, reason := some r, listeners := [] } := by
  unfold deliverAbort
  rw [if_pos hmem]
  dsimp only
  rw [if_neg (by simp [h])]

/-- Counterexample for C7 as stated: the executor-local mergeSignals
(src/http-request.ts lines 112-118) handed a single source that is already
fired with reason "already" produces a merged token that is NOT fired at
merge time (and carries no reason), contradicting the claim that the merged
token fires immediately with that source's reason. -/
theorem mergeSignals_already_fired_counterexample :
    (mergeSignalsLocalSetup [{ aborted := true, reason := "already" }]).aborted = false
    ∧ (mergeSignalsLocalSetup [{ aborted := true, reason := "already" }]).reason = none := by
  exact ⟨rfl, rfl⟩

/-- Claim C7 (amended): for the exported mergeSignals, an input source
already fired at merge time fires the merged token immediately with the
first such source's reason; when no source is fired at merge time and one
fires later, the merged token fires with that source's exact reason; zero
sources yield a token that never fires.  The executor-local mergeSignals
also propagates a later single firing with its exact reason and never fires
for zero sources, but it never fires at merge time, and a source already
fired at merge time can never fire it. -/
theorem mergeSignals_firing_behaviour :
    (∀ (signals : List Sig) (sig : Sig),
      signals.find? (fun s => s.aborted) = some sig →
      (mergeSignalsSetup signals).aborted = true
      ∧ (mergeSignalsSetup signals).reason = some sig.reason)
    ∧ (∀ (signals : List Sig) (i : Nat) (r : String),
        (∀ sig ∈ signals, sig.aborted = false) → i < signals.length →
        deliverAbort (mergeSignalsSetup signals) i r
          = { aborted := true, reason := some r, listeners := [] })
    ∧ (mergeSignalsSetup []).aborted = false
    ∧ (∀ (i : Nat) (r : String), deliverAbort (mergeSignalsSetup []) i r = mergeSignalsSetup [])
    ∧ (∀ signals : List Sig, (mergeSignalsLocalSetup signals).aborted = false
        ∧ (mergeSignalsLocalSetup signals).reason = none)
    ∧ (∀ (signals : List Sig) (st : MergedController) (i : Nat) (r : String),
        (signals.getD i { aborted := true, reason := "" }).aborted = true →
        deliverAbortLocal signals st i r = st)
    ∧ (∀ (signals : List Sig) (i : Nat) (r : String),
        (∀ sig ∈ signals, sig.aborted = false) → i < signals.length →
        (deliverAbortLocal signals (mergeSignalsLocalSetup signals) i r).aborted = true
        ∧ (deliverAbortLocal signals (mergeSignalsLocalSetup signals) i r).reason = some r)
    ∧ (∀ (i : Nat) (r : String),
        deliverAbortLocal [] (mergeSignalsLocalSetup []) i r = mergeSignalsLocalSetup []) := by
  refine ⟨?_, ?_, rfl, ?_, ?_, ?_, ?_, ?_⟩
  · intro signals sig hfind
    have h := mergeSignalsSetup_already_fired signals sig hfind
    exact ⟨h.1, h.2.1⟩
  · intro signals i r hall hi
    rw [mergeSignalsSetup_none_fired signals hall]
    apply deliverAbort_fires
    · simp [List.mem_range']
      omega
    · rfl
  · intro i r
    unfold deliverAbort
    rw [if_neg (by simp [mergeSignalsSetup, mergeLoop])]
  · intro signals
    exact ⟨rfl, rfl⟩
  · intro signals st i r hab
    unfold deliverAbortLocal
    rw [if_neg ?_]
    intro h
    rw [h.2] at hab
    exact Bool.noConfusion hab
  · intro signals i r hall hi
    unfold deliverAbortLocal
    rw [if_pos ?_]
    · constructor
      · rfl
      · rfl
    · constructor
      · simp [mergeSignalsLocalSetup, List.mem_range]
        omega
      · have hgd : signals.getD i { aborted := true, reason := "" } = signals[i] := by
          simp [List.getD_eq_getElem?_getD, List.getElem?_eq_getElem hi]
        rw [hgd]
        exact hall signals[i] (List.getElem_mem hi)
  · intro i r
    unfold deliverAbortLocal
    rw [if_neg (by simp [mergeSignalsLocalSetup])]

/-- Witness for C7 (amended) at concrete inputs: an already-fired first
source yields an immediately fired exported-merged token with reason "pre";
among three un-fired sources, source 1 firing later with "foo" fires the
exported-merged token with exactly "foo" (and releases all listeners), and
fires the executor-local merged token with exactly "foo". -/
theorem mergeSignals_firing_behaviour_witness :
    (mergeSignalsSetup [{ aborted := true, reason := "pre" },
        { aborted := false, reason := "" }]).aborted = true
    ∧ (mergeSignalsSetup [{ aborted := true, reason := "pre" },
        { aborted := false, reason := "" }]).reason = some "pre"
    ∧ deliverAbort (mergeSignalsSetup [{ aborted := false, reason := "" },
        { aborted := false, reason := "" }, { aborted := false, reason := "" }]) 1 "foo"
      = { aborted := true, reason := some "foo", listeners := [] }
    ∧ (deliverAbortLocal [{ aborted := false, reason := "" }, { aborted := false, reason := "" },
        { aborted := false, reason := "" }]
        (mergeSignalsLocalSetup [{ aborted := false, reason := "" },
          { aborted := false, reason := "" }, { aborted := false, reason := "" }]) 1 "foo").aborted
      = true
    ∧ (deliverAbortLocal [{ aborted := false, reason := "" }, { aborted := false, reason := "" },
        { aborted := false, reason := "" }]
        (mergeSignalsLocalSetup [{ aborted := false, reason := "" },
          { aborted := false, reason := "" }, { aborted := false, reason := "" }]) 1 "foo").reason
      = some "foo" := by
  have h := mergeSignals_firing_behaviour
  have h1 := h.1 [{ aborted := true, reason := "pre" }, { aborted := false, reason := "" }]
    { aborted := true, reason := "pre" } (by decide)
  have h2 := h.2.1 [{ aborted := false, reason := "" }, { aborted := false, reason := "" },
    { aborted := false, reason := "" }] 1 "foo" (by decide) (by decide)
  have h7 := h.2.2.2.2.2.2.1 [{ aborted := false, reason := "" },
    { aborted := false, reason := "" }, { aborted := false, reason := "" }] 1 "foo"
    (by decide) (by decide)
  exact ⟨h1.1, h1.2, h2, h7.1, h7.2⟩

/-- Claim C8, evaluated at the failing input (retries = 1, a transport whose
first call throws the connection condition and whose second succeeds): the
event trace shows that the retry - its backoff sleep, its timer arm and its
transport invocation - happens BEFORE the disarm of attempt 0's timer, which
only runs once the nested retry has finished, because clearTimeout sits in a
finally block whose try contains the awaited recursive retry call.  The
transport invocation of attempt 1 therefore occurs while attempt 0's timer is
still armed, contradicting the claim that the timer is disarmed before a
retry begins. -/
theorem httpRequest_stale_timer_on_retry :
    (httpRequest connThenOkTransport init0
        { retries := some 1, retryDelay := some 500, timeout := some 10000 }).trace
      = [Ev.armTimer 0 10000, Ev.fetchCall 0, Ev.sleep 500, Ev.armTimer 1 10000,
         Ev.fetchCall 1, Ev.disarmTimer 1, Ev.disarmTimer 0]
    ∧ List.indexOf (Ev.fetchCall 1)
        [Ev.armTimer 0 10000, Ev.fetchCall 0, Ev.sleep 500, Ev.armTimer 1 10000,
         Ev.fetchCall 1, Ev.disarmTimer 1, Ev.disarmTimer 0]
      < List.indexOf (Ev.disarmTimer 0)
        [Ev.armTimer 0 10000, Ev.fetchCall 0, Ev.sleep 500, Ev.armTimer 1 10000,
         Ev.fetchCall 1, Ev.disarmTimer 1, Ev.disarmTimer 0] := by
  constructor
  · simp [httpRequest, httpRequestGo, connThenOkTransport, respOkNoBody, Resp.ok,
      strIncludes_ftf]
  · decide

/-- Counterexample for C9 as stated: after a plain successful execution, the
signal field of the caller's RequestInit no longer equals its value at call
time - line 43 of src/http-request.ts overwrites init.signal with the merged
per-attempt signal. -/
theorem httpRequest_descriptor_mutation_counterexample :
    (httpRequest okTransport init0 {}).finalInit.signal ≠ init0.signal := by
  unfold httpRequest
  rw [httpRequestGo]
  dsimp only [okTransport]
  rw [if_pos (show respOkNoBody.ok = true by decide)]
  simp [attemptInit, init0]

/-- Claim C9 (amended): the executor mutates exactly the signal field of the
caller's RequestInit, overwriting it with the merged per-attempt signal;
every other field still equals its value at call time after execution
completes. -/
theorem httpRequest_mutates_only_signal (transport : Nat → FetchOutcome)
    (init : RequestInit) (opts : Options) :
    (httpRequest transport init opts).finalInit.method = init.method
    ∧ (httpRequest transport init opts).finalInit.headers = init.headers
    ∧ (httpRequest transport init opts).finalInit.body = init.body
    ∧ ∃ parts, (httpRequest transport init opts).finalInit.signal
        = some (SignalRef.merged parts) := by
  unfold httpRequest
  exact go_finalInit transport (opts.retries.getD DEFAULT_RETRIES)
    (opts.retryDelay.getD DEFAULT_RETRY_DELAY) (opts.timeout.getD DEFAULT_TIMEOUT)
    (opts.retries.getD DEFAULT_RETRIES) 0 init (by omega)

/-- Claim C10: when execution succeeds and the Response has a null body,
ResponseBuilder.stream returns Success containing the freshly constructed,
already-closed empty ReadableStream - not a Failure and not a null value. -/
theorem stream_null_body_empty_closed (transport : Nat → FetchOutcome)
    (init : RequestInit) (opts : Options) (resp : Resp)
    (h0 : transport 0 = FetchOutcome.respond resp) (hok : resp.ok = true)
    (hbody : resp.body = none) :
    ResponseBuilder.stream transport init opts = Result.success emptyClosedStream
    ∧ emptyClosedStream.closed = true
    ∧ emptyClosedStream.chunks = [] := by
  have hresp : ResponseBuilder.response transport init opts = Result.success resp := by
    unfold ResponseBuilder.response httpRequest
    rw [httpRequestGo]
    dsimp only
    rw [h0]
    dsimp only
    rw [if_pos hok]
  refine ⟨?_, rfl, rfl⟩
  simp [ResponseBuilder.stream, hresp, hbody]

/-- Witness for C10 at a concrete input: a 200 response with a null body
streams as Success of the empty closed stream. -/
theorem stream_null_body_empty_closed_witness :
    ResponseBuilder.stream okTransport init0 {} = Result.success emptyClosedStream
    ∧ emptyClosedStream.closed = true
    ∧ emptyClosedStream.chunks = [] := by
  exact stream_null_body_empty_closed okTransport init0 {} respOkNoBody rfl (by decide) rfl
